import Mathlib

/-!
Verification of the engineering unit converter (`src/converter.py`).

The three conversion functions are embedded shallowly:
numeric values are exact rationals (`ℚ`), unit identifiers are `String`s,
and a fallible conversion returns `Except String _` carrying the exact
error message the Python code raises.  Python's `str.lower()` is a
character-wise ASCII lowercasing (`lower` below), dictionary
membership/lookup is an `Option`-valued if-chain in the dictionary's
insertion order, and `str.replace` of the slash by the empty string is a
character filter removing every slash.  The fall-through at the end of
`convert_temperature` (Python would return `None`, or hit an unbound
local `celsius`) is embedded as `Option ℚ` with `none` for the
fall-through.
-/

namespace EngConverter

/-- Embedding of Python's `str.lower()`: lowercase every character. -/
def lower (s : String) : String := String.mk (s.data.map Char.toLower)

/-- The `to_pa` dictionary of `convert_pressure`: scale factor of each
pressure unit relative to pascal, `none` for a key not in the dict. -/
def to_pa (u : String) : Option ℚ :=
  if u = "psi" then some 6894.757
  else if u = "bar" then some 100000
  else if u = "kpa" then some 1000
  else if u = "mpa" then some 1000000
  else if u = "pa" then some 1
  else none

/-- Message of the `ValueError` raised by `convert_pressure`. -/
def pressure_err : String := "Unsupported pressure units. Use: psi, bar, kpa, mpa, pa"

/-- Embedding of `convert_pressure(value, from_unit, to_unit)` from
`src/converter.py`: lowercase both units, raise unless both are keys of
`to_pa`, then return `value * to_pa[from_unit] / to_pa[to_unit]`. -/
def convert_pressure (value : ℚ) (from_unit to_unit : String) : Except String ℚ :=
  match to_pa (lower from_unit), to_pa (lower to_unit) with
  | some f, some t => Except.ok (value * f / t)
  | _, _ => Except.error pressure_err

/-- The `valid_units` list of `convert_temperature`. -/
def valid_units : List String := ["c", "celsius", "f", "fahrenheit", "k", "kelvin"]

/-- Message of the `ValueError` raised by `convert_temperature`. -/
def temperature_err : String := "Unsupported temperature units. Use: c, f, k"

/-- Embedding of the first if/elif chain of `convert_temperature`:
convert `value` to Celsius keyed on the (already truncated) first letter
of the source unit.  The fall-through (no branch taken) is `none`. -/
def toCelsiusOpt (c : Char) (value : ℚ) : Option ℚ :=
  if c = 'c' then some value
  else if c = 'f' then some ((value - 32) * 5 / 9)
  else if c = 'k' then some (value - 273.15)
  else none

/-- Embedding of the second if/elif chain of `convert_temperature`:
convert a Celsius value to the target unit keyed on the first letter of
the target unit.  The fall-through (Python returns `None`) is `none`. -/
def fromCelsiusOpt (c : Char) (celsius : ℚ) : Option ℚ :=
  if c = 'c' then some celsius
  else if c = 'f' then some (celsius * 9 / 5 + 32)
  else if c = 'k' then some (celsius + 273.15)
  else none

/-- Embedding of `convert_temperature(value, from_unit, to_unit)` from
`src/converter.py`: lowercase both units, raise unless both full strings
are in `valid_units`, truncate each unit to its first character, then
run the two if/elif chains. -/
def convert_temperature (value : ℚ) (from_unit to_unit : String) : Except String (Option ℚ) :=
  let fu := lower from_unit
  let tu := lower to_unit
  if fu ∈ valid_units ∧ tu ∈ valid_units then
    Except.ok (match toCelsiusOpt fu.front value with
      | some celsius => fromCelsiusOpt tu.front celsius
      | none => none)
  else Except.error temperature_err

/-- The `to_lpm` dictionary of `convert_flow`: scale factor of each flow
unit relative to liters per minute. -/
def to_lpm (u : String) : Option ℚ :=
  if u = "gpm" then some 3.78541
  else if u = "lpm" then some 1
  else if u = "m3h" then some 16.6667
  else if u = "m3/h" then some 16.6667
  else none

/-- Message of the `ValueError` raised by `convert_flow`. -/
def flow_err : String := "Unsupported flow units. Use: gpm, lpm, m3h (or m3/h)"

/-- Embedding of Python's `s.replace` of the slash by the empty string:
remove every slash character. -/
def stripSlash (s : String) : String := String.mk (s.data.filter (fun c => c ≠ '/'))

/-- Embedding of `convert_flow(value, from_unit, to_unit)` from
`src/converter.py`: lowercase both units and strip slashes, raise unless
both are keys of `to_lpm`, then return
`value * to_lpm[from_unit] / to_lpm[to_unit]`. -/
def convert_flow (value : ℚ) (from_unit to_unit : String) : Except String ℚ :=
  match to_lpm (stripSlash (lower from_unit)), to_lpm (stripSlash (lower to_unit)) with
  | some f, some t => Except.ok (value * f / t)
  | _, _ => Except.error flow_err

/-- Modelled from the spec, for comparison with the source: the spec's
affine map taking a value in the unit named by first letter `c` to
Celsius (celsius: identity; fahrenheit: subtract 32 and scale by 5/9;
kelvin: subtract 273.15). -/
def specToCelsius (c : Char) (v : ℚ) : ℚ :=
  if c = 'c' then v
  else if c = 'f' then (v - 32) * 5 / 9
  else v - 273.15

/-- Modelled from the spec, for comparison with the source: the spec's
inverse affine map taking a Celsius value to the target unit named by
first letter `c`. -/
def specFromCelsius (c : Char) (v : ℚ) : ℚ :=
  if c = 'c' then v
  else if c = 'f' then v * 9 / 5 + 32
  else v + 273.15

/- ### Helper lemmas (shared; not tied to any single claim) -/

lemma convert_pressure_ok (v : ℚ) {fu tu : String} {f t : ℚ}
    (hf : to_pa (lower fu) = some f) (ht : to_pa (lower tu) = some t) :
    convert_pressure v fu tu = Except.ok (v * f / t) := by
  unfold convert_pressure
  rw [hf, ht]

lemma convert_flow_ok (v : ℚ) {fu tu : String} {f t : ℚ}
    (hf : to_lpm (stripSlash (lower fu)) = some f)
    (ht : to_lpm (stripSlash (lower tu)) = some t) :
    convert_flow v fu tu = Except.ok (v * f / t) := by
  unfold convert_flow
  rw [hf, ht]

lemma to_pa_pos {s : String} {f : ℚ} (h : to_pa s = some f) : 0 < f := by
  unfold to_pa at h
  split_ifs at h <;> simp_all <;> exact lt_of_lt_of_eq (by norm_num) h

lemma to_lpm_pos {s : String} {f : ℚ} (h : to_lpm s = some f) : 0 < f := by
  unfold to_lpm at h
  split_ifs at h <;> simp_all <;> exact lt_of_lt_of_eq (by norm_num) h

lemma mem_valid_cases {s : String} (h : s ∈ valid_units) :
    s = "c" ∨ s = "celsius" ∨ s = "f" ∨ s = "fahrenheit" ∨ s = "k" ∨ s = "kelvin" := by
  simpa [valid_units] using h

lemma front_valid {s : String} (h : s ∈ valid_units) :
    s.front = 'c' ∨ s.front = 'f' ∨ s.front = 'k' := by
  rcases mem_valid_cases h with h | h | h | h | h | h <;> subst h <;> decide

lemma toCelsiusOpt_spec {c : Char} (h : c = 'c' ∨ c = 'f' ∨ c = 'k') (v : ℚ) :
    toCelsiusOpt c v = some (specToCelsius c v) := by
  rcases h with h | h | h <;> subst h <;> simp [toCelsiusOpt, specToCelsius]

lemma fromCelsiusOpt_spec {c : Char} (h : c = 'c' ∨ c = 'f' ∨ c = 'k') (v : ℚ) :
    fromCelsiusOpt c v = some (specFromCelsius c v) := by
  rcases h with h | h | h <;> subst h <;> simp [fromCelsiusOpt, specFromCelsius]

lemma convert_temperature_ok (v : ℚ) {fu tu : String}
    (hf : lower fu ∈ valid_units) (ht : lower tu ∈ valid_units) :
    convert_temperature v fu tu =
      Except.ok (some (specFromCelsius (lower tu).front (specToCelsius (lower fu).front v))) := by
  simp only [convert_temperature]
  rw [if_pos ⟨hf, ht⟩, toCelsiusOpt_spec (front_valid hf)]
  exact congrArg Except.ok (fromCelsiusOpt_spec (front_valid ht) _)

lemma spec_left_inv {c : Char} (h : c = 'c' ∨ c = 'f' ∨ c = 'k') (v : ℚ) :
    specFromCelsius c (specToCelsius c v) = v := by
  rcases h with h | h | h <;> subst h <;> simp [specToCelsius, specFromCelsius]

lemma spec_right_inv {c : Char} (h : c = 'c' ∨ c = 'f' ∨ c = 'k') (v : ℚ) :
    specToCelsius c (specFromCelsius c v) = v := by
  rcases h with h | h | h <;> subst h <;> simp [specToCelsius, specFromCelsius]

lemma convert_pressure_err_iff (v : ℚ) (fu tu : String) :
    convert_pressure v fu tu = Except.error pressure_err ↔
      to_pa (lower fu) = none ∨ to_pa (lower tu) = none := by
  unfold convert_pressure
  rcases hf : to_pa (lower fu) with _ | f <;> rcases ht : to_pa (lower tu) with _ | t <;> simp

lemma convert_flow_err_iff (v : ℚ) (fu tu : String) :
    convert_flow v fu tu = Except.error flow_err ↔
      to_lpm (stripSlash (lower fu)) = none ∨ to_lpm (stripSlash (lower tu)) = none := by
  unfold convert_flow
  rcases hf : to_lpm (stripSlash (lower fu)) with _ | f <;>
    rcases ht : to_lpm (stripSlash (lower tu)) with _ | t <;> simp

/- ### Claims -/

/-- C1 counterexample: the claim says any k-prefixed garbage unit such as
"kxyz" is accepted and treated as kelvin; in the code the full string is
validated against `valid_units` before truncation, so
`convert_temperature(5, "kxyz", "c")` raises the unsupported-unit error
and does not return `5 - 273.15`. -/
theorem C1_counterexample :
    convert_temperature 5 "kxyz" "c" = Except.error temperature_err ∧
    convert_temperature 5 "kxyz" "c" ≠ Except.ok (some (5 - 273.15)) := by
  have h : convert_temperature 5 "kxyz" "c" = Except.error temperature_err := rfl
  refine ⟨h, ?_⟩
  rw [h]
  simp

/-- C1 (amended): a call to `convert_temperature` is accepted if and
only if both full lowercased unit strings lie in `valid_units`; for all
accepted strings only the first character determines the outcome (so
"kelvin" behaves exactly as "k" and maps `v` to `v - 273.15` when
converting to Celsius), while a k-prefixed garbage string such as
"kxyz" is rejected with the unsupported-unit error in either position. -/
theorem C1_full_string_validated :
    (∀ (v : ℚ) (fu tu : String),
      (∃ r : Option ℚ, convert_temperature v fu tu = Except.ok r) ↔
        (lower fu ∈ valid_units ∧ lower tu ∈ valid_units)) ∧
    (∀ (v : ℚ) (fu fu' tu tu' : String), lower fu ∈ valid_units → lower fu' ∈ valid_units →
      lower tu ∈ valid_units → lower tu' ∈ valid_units →
      (lower fu).front = (lower fu').front → (lower tu).front = (lower tu').front →
      convert_temperature v fu tu = convert_temperature v fu' tu') ∧
    (∀ v : ℚ, convert_temperature v "kelvin" "c" = Except.ok (some (v - 273.15))) ∧
    (∀ (v : ℚ) (u : String), convert_temperature v "kxyz" u = Except.error temperature_err ∧
      convert_temperature v u "kxyz" = Except.error temperature_err) := by
  refine ⟨?_, ?_, fun _ => rfl, ?_⟩
  · intro v fu tu
    constructor
    · rintro ⟨r, hr⟩
      by_contra h
      simp only [convert_temperature] at hr
      rw [if_neg h] at hr
      exact Except.noConfusion hr
    · intro h
      exact ⟨_, convert_temperature_ok v h.1 h.2⟩
  · intro v fu fu' tu tu' hf hf' ht ht' h1 h2
    rw [convert_temperature_ok v hf ht, convert_temperature_ok v hf' ht', h1, h2]
  · intro v u
    constructor
    · simp only [convert_temperature]
      rw [if_neg (fun h => absurd h.1 (by decide))]
    · simp only [convert_temperature]
      rw [if_neg (fun h => absurd h.2 (by decide))]

/-- C1 witness: the first-character rule applied at a concrete accepted
pair, "fahrenheit" to "kelvin" versus "f" to "k". -/
theorem C1_witness :
    convert_temperature 7 "fahrenheit" "kelvin" = convert_temperature 7 "f" "k" :=
  C1_full_string_validated.2.1 7 "fahrenheit" "f" "kelvin" "k"
    (by decide) (by decide) (by decide) (by decide) rfl rfl

/-- C2: `convert_temperature` raises the unsupported-unit error if and
only if the full, pre-truncation lowercased from-unit or to-unit string
is not a member of `valid_units`; when both are members no error is
raised. -/
theorem C2_temperature_error_iff (v : ℚ) (fu tu : String) :
    convert_temperature v fu tu = Except.error temperature_err ↔
      ¬(lower fu ∈ valid_units ∧ lower tu ∈ valid_units) := by
  simp only [convert_temperature]
  by_cases h : lower fu ∈ valid_units ∧ lower tu ∈ valid_units
  · rw [if_pos h]
    simp [h]
  · rw [if_neg h]
    simp [h]

/-- C3: `convert_pressure` multiplies the value by the ratio of the two
units' pascal scale factors as recorded in `to_pa` (psi = 6894.757,
bar = 100000, kpa = 1000, mpa = 1000000, pa = 1); in particular
100 psi to bar is within 0.001 of 6.8948 and 1 bar to kpa is within
0.001 of 100. -/
theorem C3_pressure_ratio :
    (to_pa "psi" = some 6894.757 ∧ to_pa "bar" = some 100000 ∧ to_pa "kpa" = some 1000 ∧
      to_pa "mpa" = some 1000000 ∧ to_pa "pa" = some 1) ∧
    (∀ (v : ℚ) (fu tu : String) (f t : ℚ), to_pa (lower fu) = some f →
      to_pa (lower tu) = some t → convert_pressure v fu tu = Except.ok (v * (f / t))) ∧
    (∃ r : ℚ, convert_pressure 100 "psi" "bar" = Except.ok r ∧ |r - 6.8948| ≤ 1 / 1000) ∧
    (∃ r : ℚ, convert_pressure 1 "bar" "kpa" = Except.ok r ∧ |r - 100| ≤ 1 / 1000) := by
  refine ⟨⟨rfl, rfl, rfl, rfl, rfl⟩, ?_, ?_, ?_⟩
  · intro v fu tu f t hf ht
    rw [convert_pressure_ok v hf ht, mul_div_assoc]
  · exact ⟨100 * 6894.757 / 100000, rfl, by rw [abs_le]; constructor <;> norm_num⟩
  · exact ⟨1 * 100000 / 1000, rfl, by rw [abs_le]; constructor <;> norm_num⟩

/-- C3 witness: the ratio form evaluated at 100 psi to bar. -/
theorem C3_witness :
    convert_pressure 100 "psi" "bar" = Except.ok (100 * (6894.757 / 100000)) :=
  C3_pressure_ratio.2.1 100 "psi" "bar" 6894.757 100000 rfl rfl

/-- C4: for valid units, `convert_temperature` maps the input to Celsius
via the spec's affine maps and applies the inverse map of the target
unit; in particular 212 F to C is within 0.01 of 100 and 0 C to K is
within 0.01 of 273.15. -/
theorem C4_temperature_affine :
    (∀ (v : ℚ) (fu tu : String), lower fu ∈ valid_units → lower tu ∈ valid_units →
      convert_temperature v fu tu =
        Except.ok (some (specFromCelsius (lower tu).front (specToCelsius (lower fu).front v)))) ∧
    (∃ r : ℚ, convert_temperature 212 "f" "c" = Except.ok (some r) ∧ |r - 100| ≤ 1 / 100) ∧
    (∃ r : ℚ, convert_temperature 0 "c" "k" = Except.ok (some r) ∧ |r - 273.15| ≤ 1 / 100) := by
  refine ⟨fun v fu tu hf ht => convert_temperature_ok v hf ht, ?_, ?_⟩
  · exact ⟨(212 - 32) * 5 / 9, rfl, by rw [abs_le]; constructor <;> norm_num⟩
  · exact ⟨0 + 273.15, rfl, by rw [abs_le]; constructor <;> norm_num⟩

/-- C4 witness: the affine form evaluated at 212 F to C. -/
theorem C4_witness :
    convert_temperature 212 "f" "c" =
      Except.ok (some (specFromCelsius (lower "c").front (specToCelsius (lower "f").front 212))) :=
  C4_temperature_affine.1 212 "f" "c" (by decide) (by decide)

/-- C5: `convert_flow` multiplies the value by the ratio of the two
units' liters-per-minute scale factors as recorded in `to_lpm`
(gpm = 3.78541, lpm = 1, m3h = 16.6667), slashes being stripped before
lookup so that "m3/h" and "m3h" are interchangeable in either position;
in particular 1 gpm to lpm is within 0.001 of 3.78541 and 1 m3h to lpm
is within 0.001 of 16.6667. -/
theorem C5_flow_ratio :
    (to_lpm "gpm" = some 3.78541 ∧ to_lpm "lpm" = some 1 ∧ to_lpm "m3h" = some 16.6667) ∧
    (∀ (v : ℚ) (fu tu : String) (f t : ℚ), to_lpm (stripSlash (lower fu)) = some f →
      to_lpm (stripSlash (lower tu)) = some t → convert_flow v fu tu = Except.ok (v * (f / t))) ∧
    (∀ (v : ℚ) (u : String), convert_flow v "m3/h" u = convert_flow v "m3h" u ∧
      convert_flow v u "m3/h" = convert_flow v u "m3h") ∧
    (∃ r : ℚ, convert_flow 1 "gpm" "lpm" = Except.ok r ∧ |r - 3.78541| ≤ 1 / 1000) ∧
    (∃ r : ℚ, convert_flow 1 "m3h" "lpm" = Except.ok r ∧ |r - 16.6667| ≤ 1 / 1000) := by
  refine ⟨⟨rfl, rfl, rfl⟩, ?_, fun v u => ⟨rfl, rfl⟩, ?_, ?_⟩
  · intro v fu tu f t hf ht
    rw [convert_flow_ok v hf ht, mul_div_assoc]
  · exact ⟨1 * 3.78541 / 1, rfl, by rw [abs_le]; constructor <;> norm_num⟩
  · exact ⟨1 * 16.6667 / 1, rfl, by rw [abs_le]; constructor <;> norm_num⟩

/-- C5 witness: the ratio form evaluated at 1 gpm to lpm. -/
theorem C5_witness : convert_flow 1 "gpm" "lpm" = Except.ok (1 * (3.78541 / 1)) :=
  C5_flow_ratio.2.1 1 "gpm" "lpm" 3.78541 1 rfl rfl

/-- C6: in every domain, converting a value from unit A to unit B and
back to A returns a value within relative tolerance 1/1000000 of the
original (the round trip is in fact exact over the rationals). -/
theorem C6_round_trip :
    (∀ (v : ℚ) (fu tu : String) (f t : ℚ), to_pa (lower fu) = some f →
      to_pa (lower tu) = some t → ∃ r r' : ℚ, convert_pressure v fu tu = Except.ok r ∧
        convert_pressure r tu fu = Except.ok r' ∧ |r' - v| ≤ 1 / 1000000 * |v|) ∧
    (∀ (v : ℚ) (fu tu : String), lower fu ∈ valid_units → lower tu ∈ valid_units →
      ∃ r r' : ℚ, convert_temperature v fu tu = Except.ok (some r) ∧
        convert_temperature r tu fu = Except.ok (some r') ∧ |r' - v| ≤ 1 / 1000000 * |v|) ∧
    (∀ (v : ℚ) (fu tu : String) (f t : ℚ), to_lpm (stripSlash (lower fu)) = some f →
      to_lpm (stripSlash (lower tu)) = some t →
      ∃ r r' : ℚ, convert_flow v fu tu = Except.ok r ∧
        convert_flow r tu fu = Except.ok r' ∧ |r' - v| ≤ 1 / 1000000 * |v|) := by
  refine ⟨?_, ?_, ?_⟩
  · intro v fu tu f t hf ht
    refine ⟨v * f / t, v * f / t * t / f, convert_pressure_ok v hf ht,
      convert_pressure_ok _ ht hf, ?_⟩
    have hf0 : f ≠ 0 := ne_of_gt (to_pa_pos hf)
    have ht0 : t ≠ 0 := ne_of_gt (to_pa_pos ht)
    have hv : v * f / t * t / f = v := by field_simp
    rw [hv, sub_self, abs_zero]
    positivity
  · intro v fu tu hf ht
    refine ⟨_, _, convert_temperature_ok v hf ht, convert_temperature_ok _ ht hf, ?_⟩
    rw [spec_right_inv (front_valid ht), spec_left_inv (front_valid hf), sub_self, abs_zero]
    positivity
  · intro v fu tu f t hf ht
    refine ⟨v * f / t, v * f / t * t / f, convert_flow_ok v hf ht,
      convert_flow_ok _ ht hf, ?_⟩
    have hf0 : f ≠ 0 := ne_of_gt (to_lpm_pos hf)
    have ht0 : t ≠ 0 := ne_of_gt (to_lpm_pos ht)
    have hv : v * f / t * t / f = v := by field_simp
    rw [hv, sub_self, abs_zero]
    positivity

/-- C6 witness: the pressure round trip psi to bar and back at 100. -/
theorem C6_witness :
    ∃ r r' : ℚ, convert_pressure 100 "psi" "bar" = Except.ok r ∧
      convert_pressure r "bar" "psi" = Except.ok r' ∧ |r' - 100| ≤ 1 / 1000000 * |(100 : ℚ)| :=
  C6_round_trip.1 100 "psi" "bar" 6894.757 100000 rfl rfl

/-- C7: `convert_pressure` and `convert_flow` raise the unsupported-unit
error if and only if the normalized from-unit or to-unit (lowercased;
additionally slash-stripped for flow) is absent from the domain's table,
and the same error arises whichever position holds the invalid token
(for example the pressure unit "atm"). -/
theorem C7_table_error_iff :
    (∀ (v : ℚ) (fu tu : String), convert_pressure v fu tu = Except.error pressure_err ↔
      to_pa (lower fu) = none ∨ to_pa (lower tu) = none) ∧
    (∀ (v : ℚ) (fu tu : String), convert_flow v fu tu = Except.error flow_err ↔
      to_lpm (stripSlash (lower fu)) = none ∨ to_lpm (stripSlash (lower tu)) = none) ∧
    (∀ (v : ℚ) (u : String), convert_pressure v "atm" u = Except.error pressure_err ∧
      convert_pressure v u "atm" = Except.error pressure_err) := by
  refine ⟨convert_pressure_err_iff, convert_flow_err_iff, ?_⟩
  intro v u
  constructor
  · rw [convert_pressure_err_iff]
    left
    rfl
  · rw [convert_pressure_err_iff]
    right
    rfl

/-- C8: unit matching is case-insensitive in all three converters:
unit strings with equal lowercasings give identical outcomes, and in
particular "PSI" behaves exactly as "psi" for every value and every
other unit. -/
theorem C8_case_insensitive :
    (∀ (v : ℚ) (fu fu' tu tu' : String), lower fu = lower fu' → lower tu = lower tu' →
      convert_pressure v fu tu = convert_pressure v fu' tu' ∧
      convert_temperature v fu tu = convert_temperature v fu' tu' ∧
      convert_flow v fu tu = convert_flow v fu' tu') ∧
    (∀ (v : ℚ) (u : String), convert_pressure v "PSI" u = convert_pressure v "psi" u) := by
  constructor
  · intro v fu fu' tu tu' h1 h2
    refine ⟨?_, ?_, ?_⟩
    · simp only [convert_pressure, h1, h2]
    · simp only [convert_temperature, h1, h2]
    · simp only [convert_flow, h1, h2]
  · intro v u
    rfl

/-- C8 witness: uppercase and lowercase unit spellings agree at 7 PSI to
BAR in every domain. -/
theorem C8_witness :
    convert_pressure 7 "PSI" "BAR" = convert_pressure 7 "psi" "bar" ∧
    convert_temperature 7 "PSI" "BAR" = convert_temperature 7 "psi" "bar" ∧
    convert_flow 7 "PSI" "BAR" = convert_flow 7 "psi" "bar" :=
  C8_case_insensitive.1 7 "PSI" "psi" "BAR" "bar" rfl rfl

/-- C9: every string in `valid_units` starts with the letter c, f or k,
so once validation passes the two branch chains of
`convert_temperature` cover every case and the function always produces
a numeric result: the fall-through value (Python `None`) is
unreachable. -/
theorem C9_no_fall_through :
    (∀ s ∈ valid_units, s.front = 'c' ∨ s.front = 'f' ∨ s.front = 'k') ∧
    (∀ (v : ℚ) (fu tu : String), lower fu ∈ valid_units → lower tu ∈ valid_units →
      ∃ r : ℚ, convert_temperature v fu tu = Except.ok (some r)) := by
  refine ⟨fun s hs => front_valid hs, ?_⟩
  intro v fu tu hf ht
  exact ⟨_, convert_temperature_ok v hf ht⟩

/-- C9 witness: the branch coverage and the numeric result at a concrete
valid call. -/
theorem C9_witness :
    ("kelvin".front = 'c' ∨ "kelvin".front = 'f' ∨ "kelvin".front = 'k') ∧
    ∃ r : ℚ, convert_temperature 1 "fahrenheit" "kelvin" = Except.ok (some r) :=
  ⟨C9_no_fall_through.1 "kelvin" (by decide),
   C9_no_fall_through.2 1 "fahrenheit" "kelvin" (by decide) (by decide)⟩

/-- C10: identity conversion is exact over the rationals: converting a
value from any supported unit to itself returns exactly the value, in
all three domains. -/
theorem C10_identity_exact :
    (∀ (v : ℚ) (u : String) (f : ℚ), to_pa (lower u) = some f →
      convert_pressure v u u = Except.ok v) ∧
    (∀ (v : ℚ) (u : String), lower u ∈ valid_units →
      convert_temperature v u u = Except.ok (some v)) ∧
    (∀ (v : ℚ) (u : String) (f : ℚ), to_lpm (stripSlash (lower u)) = some f →
      convert_flow v u u = Except.ok v) := by
  refine ⟨?_, ?_, ?_⟩
  · intro v u f h
    rw [convert_pressure_ok v h h]
    have h0 : f ≠ 0 := ne_of_gt (to_pa_pos h)
    congr 1
    field_simp
  · intro v u h
    rw [convert_temperature_ok v h h, spec_left_inv (front_valid h)]
  · intro v u f h
    rw [convert_flow_ok v h h]
    have h0 : f ≠ 0 := ne_of_gt (to_lpm_pos h)
    congr 1
    field_simp

/-- C10 witness: identity conversions at 42 in each domain. -/
theorem C10_witness :
    convert_pressure 42 "psi" "psi" = Except.ok 42 ∧
    convert_temperature 42 "kelvin" "kelvin" = Except.ok (some 42) ∧
    convert_flow 42 "m3/h" "m3/h" = Except.ok 42 :=
  ⟨C10_identity_exact.1 42 "psi" 6894.757 rfl,
   C10_identity_exact.2.1 42 "kelvin" (by decide),
   C10_identity_exact.2.2 42 "m3/h" 16.6667 rfl⟩

end EngConverter
